import Mathlib

/-!
# Verification of the webpack build-configuration spec

Shallow embedding of `src/webpack.config.js` (the exported configuration
function and the concrete option values it returns) together with models,
written from the specification, of the engine stages the configuration
drives: dependency-graph construction, chunk planning, emission and the
DefinePlugin compile-time substitution.
-/

set_option maxHeartbeats 1000000

namespace Webpack

/-- A JavaScript runtime error; `argv.env.NODE_ENV` with `argv.env`
undefined raises a TypeError (source line 14). -/
inductive JsError
  | typeError
deriving DecidableEq

/-- The `env` object inside `argv`: the source reads a single field,
`argv.env.NODE_ENV` (lines 14 and 161). -/
structure Env where
  NODE_ENV : String
deriving DecidableEq

/-- The `argv` parameter of the exported function: the source reads
`argv.env` (possibly undefined) and `argv.mode` (possibly undefined). -/
structure Argv where
  env : Option Env
  mode : Option String
deriving DecidableEq

/-- Capability tag of a module (spec §3: script/style/asset). -/
inductive Capability
  | script
  | style
  | asset
deriving DecidableEq

/-- A resolved module: identity (path), transformed content, capability
tag (spec §3). -/
structure Module where
  path : String
  content : String
  capability : Capability
deriving DecidableEq

/-- Bool-valued substring test on char lists, used to embed the regex
test `[\\/]node_modules[\\/]` of the vendor cache group (line 120). -/
def hasSubstr (hay needle : List Char) : Bool :=
  needle.isPrefixOf hay ||
    match hay with
    | [] => false
    | _ :: t => hasSubstr t needle

/-- The two regex tests used by the cache groups of the source:
`/[\\/]node_modules[\\/]/` (line 120) and `/\.css$/` (line 126). -/
inductive ModuleTest
  | vendorPath
  | cssFile
deriving DecidableEq

/-- Evaluate a cache-group test against a module's resolved path, as the
source regexes do. -/
def ModuleTest.matches : ModuleTest → Module → Bool
  | .vendorPath, m =>
      hasSubstr m.path.data "/node_modules/".data ||
        hasSubstr m.path.data "\\node_modules\\".data
  | .cssFile, m => List.isSuffixOf ".css".data m.path.data

/-- One entry of `optimization.splitChunks.cacheGroups` (lines 118-130).
`enforce` defaults to `false` when the source omits it. -/
structure CacheGroup where
  key : String
  test : ModuleTest
  name : String
  chunks : String
  enforce : Bool
deriving DecidableEq

/-- The cache groups declared by the source, in declaration order:
`vendor` (lines 119-123) before `styles` (lines 124-129). -/
def cacheGroups : List CacheGroup :=
  [ { key := "vendor", test := .vendorPath, name := "vendors",
      chunks := "all", enforce := false },
    { key := "styles", test := .cssFile, name := "styles",
      chunks := "all", enforce := true } ]

/-- Escape one character for a JSON string literal. -/
def escapeJsonChar (c : Char) : List Char :=
  if c = '"' ∨ c = '\\' then ['\\', c] else [c]

/-- Escape a character list for a JSON string literal. -/
def escapeJson : List Char → List Char
  | [] => []
  | c :: rest => escapeJsonChar c ++ escapeJson rest

/-- `JSON.stringify` applied to a string value (source line 161). -/
def jsonStringify (s : String) : String :=
  ⟨'"' :: (escapeJson s.data ++ ['"'])⟩

/-- `output.filename` (source line 39): the template depends only on
`devMode`. -/
def outputFilenameTemplate (devMode : Bool) : String :=
  if devMode then "[name].js" else "[name].[contenthash].js"

/-- `MiniCssExtractPlugin` `filename` option (source line 152). -/
def cssFilenameTemplate (devMode : Bool) : String :=
  if devMode then "[name].css" else "[name].[contenthash].css"

/-- `MiniCssExtractPlugin` `chunkFilename` option (source line 153). -/
def cssChunkFilenameTemplate (devMode : Bool) : String :=
  if devMode then "[id].css" else "[id].[contenthash].css"

/-- The configuration object built by the source (lines 25-164), with the
fields the source sets. `mode: argv.mode` is commented out in the source,
so the object carries no mode field. -/
structure Config where
  entryIndex : String
  outputFilename : String
  outputPath : String
  devtool : String
  devServerContentBase : String
  devServerHot : Bool
  cssLoaderHmr : Bool
  cssLoaderReloadAll : Bool
  babelTargets : String
  moduleIds : String
  runtimeChunk : String
  splitChunksChunks : String
  splitChunksCacheGroups : List CacheGroup
  htmlTemplate : String
  copyPatterns : List String
  miniCssFilename : String
  miniCssChunkFilename : String
  miniCssIgnoreOrder : Bool
  defineNodeEnv : String
deriving DecidableEq

/-- The configuration value as a function of `argv.env.NODE_ENV`: `devMode`
is `argv.env.NODE_ENV !== "production"` (line 14) and parameterizes
`output.filename`, `devtool`, the css-loader `hmr` option and the
MiniCssExtractPlugin filenames; everything else is constant. -/
def mkConfig (nodeEnv : String) : Config :=
  let devMode : Bool := nodeEnv ≠ "production"
  { entryIndex := "./src/index.js"
    outputFilename := outputFilenameTemplate devMode
    outputPath := "dist"
    devtool := if devMode then "source-map" else "cheap-source-map"
    devServerContentBase := "./dist"
    devServerHot := true
    cssLoaderHmr := devMode
    cssLoaderReloadAll := true
    babelTargets := "> 0.25%, not dead"
    moduleIds := "hashed"
    runtimeChunk := "single"
    splitChunksChunks := "all"
    splitChunksCacheGroups := cacheGroups
    htmlTemplate := "./public/index.html"
    copyPatterns := ["./data/states.geojson", "public/assets/mapIcons"]
    miniCssFilename := cssFilenameTemplate devMode
    miniCssChunkFilename := cssChunkFilenameTemplate devMode
    miniCssIgnoreOrder := false
    defineNodeEnv := jsonStringify nodeEnv }

/-- The single console line logged by lines 16-22, a function of
`argv.mode` alone. -/
def consoleLine (mode : Option String) : String :=
  if mode = some "development" then "webpack is in dev mode"
  else if mode = some "production" then "webpack is in production mode"
  else "webpack has no mode defined"

/-- The exported configuration function (source lines 11-167): given
webpack's `(env, argv)` pair it either raises a TypeError — when
`argv.env` is undefined, since line 14 reads `argv.env.NODE_ENV` — or
returns the console output of lines 16-22 together with the configuration
object of lines 25-164. The first parameter `env` is never read by the
source. -/
def moduleExports (env : Option Env) (argv : Argv) :
    Except JsError (List String × Config) :=
  match argv.env with
  | none => .error .typeError
  | some e => .ok ([consoleLine argv.mode], mkConfig e.NODE_ENV)

/-- A chunk: a named group of modules emitted as one artifact (spec §3). -/
structure Chunk where
  name : String
  modules : List Module
deriving DecidableEq

/-- The serialized content of a chunk: its modules' transformed content in
chunk order (spec §4.5). -/
def serializeChunk (c : Chunk) : String :=
  String.join (c.modules.map (fun m => m.content))

/-- Substitute the `[name]` and `[contenthash]` placeholders of a webpack
filename template (the templates of source lines 39 and 152). -/
def renderChars (name hash : List Char) : List Char → List Char
  | '[' :: 'n' :: 'a' :: 'm' :: 'e' :: ']' :: rest =>
      name ++ renderChars name hash rest
  | '[' :: 'c' :: 'o' :: 'n' :: 't' :: 'e' :: 'n' :: 't' :: 'h' :: 'a' :: 's' :: 'h' :: ']' :: rest =>
      hash ++ renderChars name hash rest
  | c :: rest => c :: renderChars name hash rest
  | [] => []

/-- Render a filename template against a chunk name and a content hash. -/
def render (tpl name hash : String) : String :=
  ⟨renderChars name.data hash.data tpl.data⟩

/-- The emitted script filename of a chunk: `output.filename` (line 39)
rendered with the chunk's name and the content hash of its serialized
content. -/
def chunkScriptFilename (devMode : Bool) (hash : String → String)
    (c : Chunk) : String :=
  render (outputFilenameTemplate devMode) c.name (hash (serializeChunk c))

/-- The emitted stylesheet filename of a chunk: the MiniCssExtractPlugin
`filename` template (line 152) rendered the same way. -/
def chunkCssFilename (devMode : Bool) (hash : String → String)
    (c : Chunk) : String :=
  render (cssFilenameTemplate devMode) c.name (hash (serializeChunk c))

/-- Modelled from the spec (§4.4, rule-driven grouping): SplitRules are
evaluated in declared order, the first matching rule assigns the module to
its named target chunk, and an unmatched module goes to the default
(entry) chunk. The rules themselves are the source's `cacheGroups`. -/
def assignChunk (rules : List CacheGroup) (dflt : String) (m : Module) :
    String :=
  match rules.find? (fun r => r.test.matches m) with
  | some r => r.name
  | none => dflt

/-- Add a module to the chunk of the given name, creating the chunk on
first use (spec §4.4). -/
def insertModule (n : String) (m : Module) : List Chunk → List Chunk
  | [] => [{ name := n, modules := [m] }]
  | c :: cs =>
      if c.name = n then { name := c.name, modules := c.modules ++ [m] } :: cs
      else c :: insertModule n m cs

/-- Modelled from the spec (§4.4 phase 2): group every module of the graph
into the chunk chosen by `assignChunk`. -/
def groupByChunk (rules : List CacheGroup) (dflt : String) :
    List Module → List Chunk
  | [] => []
  | m :: ms => insertModule (assignChunk rules dflt m) m
      (groupByChunk rules dflt ms)

/-- Total number of occurrences of a module across all chunks. -/
def countModules (cs : List Chunk) (x : Module) : Nat :=
  (cs.map (fun c => c.modules.count x)).sum

/-- Modelled from the spec (§4.4 phase 1): the module-loading bootstrap
logic shared across entry points, hoisted out of every entry chunk. -/
def runtimeBootstrap : Module :=
  { path := "webpack/runtime", content := "bootstrap", capability := .script }

/-- Modelled from the spec (§4.4) and `optimization.runtimeChunk: "single"`
(source line 115): the planner emits one designated runtime chunk holding
the bootstrap logic, placed before every other chunk in load order, then
the rule-grouped chunks. -/
def plan (rules : List CacheGroup) (dflt : String) (graph : List Module) :
    List Chunk :=
  { name := "runtime", modules := [runtimeBootstrap] } ::
    groupByChunk rules dflt graph

/-- Modelled from the spec (§4.3): breadth-first dependency discovery from
the entry roots; a module identity is entered into the table (and hence
transformed) at most once — revisiting an already-tabled identity adds no
second entry. `fuel` bounds the recursion depth. -/
def buildGraph (imports : String → List String) :
    Nat → List String → List String → List String
  | 0, _, table => table
  | _ + 1, [], table => table
  | fuel + 1, i :: queue, table =>
    if i ∈ table then buildGraph imports fuel queue table
    else buildGraph imports fuel (queue ++ imports i) (i :: table)

/-- An emit-stage failure (spec §7: `EmitError`, I/O failure writing
output). -/
inductive EmitError
  | ioFailure (chunkName : String)
deriving DecidableEq

/-- The output directory: emitted filename paired with file content. -/
structure OutputDir where
  files : List (String × String)
deriving DecidableEq

/-- Serialize every chunk, naming each artifact; the first failing chunk
aborts the whole serialization (spec §7: all errors are build-fatal). -/
def serializeAll (ser : Chunk → Except EmitError String)
    (namer : Chunk → String) :
    List Chunk → Except EmitError (List (String × String))
  | [] => .ok []
  | c :: cs =>
    match ser c with
    | .error e => .error e
    | .ok s =>
      match serializeAll ser namer cs with
      | .error e => .error e
      | .ok rest => .ok ((namer c, s) :: rest)

/-- Modelled from the spec (§4.5, §7) and CleanWebpackPlugin (source line
137): nothing is written until the whole chunk set is serialized; only
then is the prior output directory fully cleared and every artifact
written. A failure anywhere leaves the prior directory untouched. The
resulting directory is the first component; the manifest (or the fatal
error) is the second. -/
def emit (ser : Chunk → Except EmitError String) (namer : Chunk → String)
    (prior : OutputDir) (chunks : List Chunk) :
    OutputDir × Except EmitError (List (String × String)) :=
  match serializeAll ser namer chunks with
  | .error e => (prior, .error e)
  | .ok artifacts => ({ files := artifacts }, .ok artifacts)

/-- Read the body of a JavaScript double-quoted string literal, after the
opening quote: handles backslash escapes and requires the closing quote to
end the token. -/
def readStringBody : List Char → Option (List Char)
  | [] => none
  | c :: rest =>
    if c = '\\' then
      match rest with
      | [] => none
      | d :: rest2 => (readStringBody rest2).map (fun l => d :: l)
    else if c = '"' then
      if rest.isEmpty then some [] else none
    else (readStringBody rest).map (fun l => c :: l)

/-- The value the bundled application observes when it evaluates a
replaced token as a JavaScript string literal. -/
def evalStringLiteral (s : String) : Option String :=
  match s.data with
  | [] => none
  | c :: rest =>
    if c = '"' then (readStringBody rest).map (fun l => ⟨l⟩) else none

/-- Modelled from the spec: `webpack.DefinePlugin` compile-time
substitution — every source token equal to a defined key is replaced by
the configured replacement text (the source configures the single mapping
`process.env.NODE_ENV ↦ JSON.stringify(argv.env.NODE_ENV)`, lines
160-162). -/
def defineReplace (key repl : String) (tokens : List String) :
    List String :=
  tokens.map (fun t => if t = key then repl else t)

theorem data_append (a b : String) : (a ++ b).data = a.data ++ b.data := rfl

theorem string_ext (a b : String) (h : a.data = b.data) : a = b :=
  congrArg String.mk h

theorem render_name_js (n h : String) :
    render "[name].js" n h = n ++ ".js" := by
  apply string_ext
  show n.data ++ ('.' :: 'j' :: 's' :: []) = (n ++ ".js").data
  rw [data_append]

theorem render_name_hash_js (n h : String) :
    render "[name].[contenthash].js" n h = n ++ "." ++ h ++ ".js" := by
  apply string_ext
  show n.data ++ ('.' :: (h.data ++ ('.' :: 'j' :: 's' :: []))) = _
  rw [data_append, data_append, data_append]
  simp

theorem render_name_css (n h : String) :
    render "[name].css" n h = n ++ ".css" := by
  apply string_ext
  show n.data ++ ('.' :: 'c' :: 's' :: 's' :: []) = (n ++ ".css").data
  rw [data_append]

theorem render_name_hash_css (n h : String) :
    render "[name].[contenthash].css" n h = n ++ "." ++ h ++ ".css" := by
  apply string_ext
  show n.data ++ ('.' :: (h.data ++ ('.' :: 'c' :: 's' :: 's' :: []))) = _
  rw [data_append, data_append, data_append]
  simp

theorem hash_cancel (n h1 h2 : String)
    (he : n ++ "." ++ h1 ++ ".js" = n ++ "." ++ h2 ++ ".js") : h1 = h2 := by
  apply string_ext
  have hd := congrArg String.data he
  rw [data_append, data_append, data_append, data_append, data_append,
    data_append] at hd
  simp only [List.append_assoc] at hd
  have h3 := List.append_cancel_left (List.append_cancel_left hd)
  exact List.append_cancel_right h3

theorem buildGraph_nodup (imports : String → List String) (fuel : Nat) :
    ∀ (queue table : List String), table.Nodup →
      (buildGraph imports fuel queue table).Nodup := by
  induction fuel with
  | zero => intro q t h; simpa [buildGraph] using h
  | succ n ih =>
    intro q t h
    cases q with
    | nil => simpa [buildGraph] using h
    | cons i qs =>
      rw [buildGraph]
      split
      · exact ih qs t h
      · exact ih _ _ (List.nodup_cons.mpr ⟨by assumption, h⟩)

theorem countModules_insertModule (n : String) (m x : Module) :
    ∀ cs : List Chunk, countModules (insertModule n m cs) x =
      countModules cs x + (if x = m then 1 else 0) := by
  intro cs
  induction cs with
  | nil =>
    by_cases h : x = m
    · subst h; simp [insertModule, countModules, List.count_cons]
    · simp [insertModule, countModules, List.count_cons, h]
  | cons c cs ih =>
    rw [insertModule]
    split
    · simp [countModules, List.count_append, List.count_cons]
      by_cases h : x = m
      · subst h; simp; omega
      · simp [h]
        intro hmx
        exact absurd hmx.symm h
    · simp [countModules] at ih ⊢
      omega

theorem mem_of_mem_insertModule (n : String) (m x : Module) :
    ∀ (cs : List Chunk) (c : Chunk), c ∈ insertModule n m cs →
      x ∈ c.modules → x = m ∨ ∃ c2 ∈ cs, x ∈ c2.modules := by
  intro cs
  induction cs with
  | nil =>
    intro c hc hx
    simp [insertModule] at hc
    subst hc
    simp at hx
    exact Or.inl hx
  | cons c0 cs ih =>
    intro c hc hx
    rw [insertModule] at hc
    split at hc
    · rcases List.mem_cons.mp hc with h | h
      · subst h
        simp at hx
        rcases hx with hx | hx
        · exact Or.inr ⟨c0, List.mem_cons_self c0 cs, hx⟩
        · exact Or.inl hx
      · exact Or.inr ⟨c, List.mem_cons_of_mem c0 h, hx⟩
    · rcases List.mem_cons.mp hc with h | h
      · subst h
        exact Or.inr ⟨c, List.mem_cons_self c cs, hx⟩
      · rcases ih c h hx with h2 | ⟨c2, hc2, hx2⟩
        · exact Or.inl h2
        · exact Or.inr ⟨c2, List.mem_cons_of_mem c0 hc2, hx2⟩

theorem countModules_groupByChunk (rules : List CacheGroup) (dflt : String)
    (x : Module) : ∀ ms : List Module,
      countModules (groupByChunk rules dflt ms) x = ms.count x := by
  intro ms
  induction ms with
  | nil => rfl
  | cons m ms ih =>
    rw [groupByChunk, countModules_insertModule, ih]
    by_cases h : x = m
    · subst h; simp [List.count_cons]
    · simp [List.count_cons, h]

theorem mem_groupByChunk (rules : List CacheGroup) (dflt : String)
    (x : Module) : ∀ (ms : List Module) (c : Chunk),
      c ∈ groupByChunk rules dflt ms → x ∈ c.modules → x ∈ ms := by
  intro ms
  induction ms with
  | nil => intro c hc; simp [groupByChunk] at hc
  | cons m ms ih =>
    intro c hc hx
    rw [groupByChunk] at hc
    rcases mem_of_mem_insertModule (assignChunk rules dflt m) m x
      (groupByChunk rules dflt ms) c hc hx with h | ⟨c2, hc2, hx2⟩
    · subst h; exact List.mem_cons_self x ms
    · exact List.mem_cons_of_mem m (ih c2 hc2 hx2)

theorem serializeAll_names (ser : Chunk → Except EmitError String)
    (namer : Chunk → String) :
    ∀ (cs : List Chunk) (arts : List (String × String)),
      serializeAll ser namer cs = .ok arts →
      arts.map Prod.fst = cs.map namer := by
  intro cs
  induction cs with
  | nil => intro arts h; simp [serializeAll] at h; subst h; rfl
  | cons c cs ih =>
    intro arts h
    rw [serializeAll] at h
    cases hs : ser c with
    | error e => rw [hs] at h; exact absurd h (by simp)
    | ok s =>
      rw [hs] at h
      cases hr : serializeAll ser namer cs with
      | error e => rw [hr] at h; exact absurd h (by simp)
      | ok rest =>
        rw [hr] at h
        simp at h
        subst h
        simp [ih rest hr]

theorem readStringBody_escapeJson (l : List Char) :
    readStringBody (escapeJson l ++ ['"']) = some l := by
  induction l with
  | nil => rfl
  | cons c rest ih =>
    by_cases hc : c = '"' ∨ c = '\\'
    · show readStringBody (escapeJsonChar c ++ escapeJson rest ++ ['"']) = _
      rw [escapeJsonChar, if_pos hc]
      show readStringBody ('\\' :: c :: (escapeJson rest ++ ['"'])) = _
      rw [readStringBody.eq_def]
      simp [ih]
    · show readStringBody (escapeJsonChar c ++ escapeJson rest ++ ['"']) = _
      rw [escapeJsonChar, if_neg hc]
      push_neg at hc
      show readStringBody (c :: (escapeJson rest ++ ['"'])) = _
      rw [readStringBody.eq_def]
      simp only [if_neg hc.2, if_neg hc.1]
      simp [ih]

theorem evalStringLiteral_jsonStringify (s : String) :
    evalStringLiteral (jsonStringify s) = some s := by
  show (readStringBody (escapeJson s.data ++ ['"'])).map
    (fun l => (⟨l⟩ : String)) = some s
  rw [readStringBody_escapeJson]
  rfl

/-- C1 counterexample: with `argv.mode = "staging"` — a mode value that is
neither development nor production — the exported function does not fail
with a ConfigError: it returns a full configuration (silently treating the
build as development, since `devMode` is decided only by `NODE_ENV`),
merely logging that no mode is defined. -/
theorem C1_counterexample :
    moduleExports none
      { env := some { NODE_ENV := "development" }, mode := some "staging" } =
      .ok (["webpack has no mode defined"], mkConfig "development") := rfl

/-- C1 (amended): for every mode value other than development and
production, the exported function does not fail at all — there is no
ConfigError and no mode validation. It logs "webpack has no mode defined"
and returns the configuration object unchanged, determined solely by
`argv.env.NODE_ENV` (`devMode = NODE_ENV ≠ "production"`), i.e. an
unrecognized mode silently gets the development-style configuration. -/
theorem C1_unrecognized_mode_accepted (env : Option Env) (argv : Argv)
    (e : Env) (henv : argv.env = some e)
    (hdev : argv.mode ≠ some "development")
    (hprod : argv.mode ≠ some "production") :
    moduleExports env argv =
      .ok (["webpack has no mode defined"], mkConfig e.NODE_ENV) := by
  simp [moduleExports, henv, consoleLine, hdev, hprod]

/-- C1 witness: the amended theorem applied at `mode = "staging"`,
`NODE_ENV = "development"`. -/
theorem C1_witness :
    ({ env := some { NODE_ENV := "development" }, mode := some "staging" } :
        Argv).env = some { NODE_ENV := "development" } ∧
    ({ env := some { NODE_ENV := "development" }, mode := some "staging" } :
        Argv).mode ≠ some "development" ∧
    ({ env := some { NODE_ENV := "development" }, mode := some "staging" } :
        Argv).mode ≠ some "production" ∧
    moduleExports none
      { env := some { NODE_ENV := "development" }, mode := some "staging" } =
      .ok (["webpack has no mode defined"], mkConfig "development") :=
  ⟨rfl, by decide, by decide,
    C1_unrecognized_mode_accepted none _ { NODE_ENV := "development" } rfl
      (by decide) (by decide)⟩

/-- C2: modelled from the spec — a build that fails at any stage leaves
the output directory in its prior state (nothing partially overwritten),
and a successful build writes the whole chunk set: the resulting directory
holds exactly the serialized artifacts, one per chunk, in chunk order. -/
theorem C2_atomic_output (ser : Chunk → Except EmitError String)
    (namer : Chunk → String) (prior : OutputDir) (chunks : List Chunk) :
    (∀ e, (emit ser namer prior chunks).2 = .error e →
      (emit ser namer prior chunks).1 = prior) ∧
    (∀ arts, (emit ser namer prior chunks).2 = .ok arts →
      (emit ser namer prior chunks).1.files = arts ∧
      arts.map Prod.fst = chunks.map namer) := by
  constructor
  · intro e he
    cases hs : serializeAll ser namer chunks with
    | error e2 => simp [emit, hs]
    | ok arts => simp [emit, hs] at he
  · intro arts ha
    cases hs : serializeAll ser namer chunks with
    | error e2 => simp [emit, hs] at ha
    | ok arts2 =>
      simp [emit, hs] at ha ⊢
      subst ha
      exact ⟨rfl, serializeAll_names ser namer chunks arts2 hs⟩

/-- C2 witness: the atomicity theorem applied to a one-chunk build whose
serialization fails with an I/O error — the prior output directory is
retained untouched. -/
theorem C2_witness :
    (emit (fun c => .error (.ioFailure c.name)) (fun c => c.name)
        { files := [("old.js", "old content")] }
        [{ name := "main", modules := [] }]).2 =
      .error (.ioFailure "main") ∧
    (emit (fun c => .error (.ioFailure c.name)) (fun c => c.name)
        { files := [("old.js", "old content")] }
        [{ name := "main", modules := [] }]).1 =
      { files := [("old.js", "old content")] } :=
  ⟨rfl,
    (C2_atomic_output (fun c => .error (.ioFailure c.name)) (fun c => c.name)
        { files := [("old.js", "old content")] }
        [{ name := "main", modules := [] }]).1
      (.ioFailure "main") rfl⟩

/-- C3: for every chunk, the development-mode emitted filename is the
logical chunk name plus the fixed extension — no hash — while the
production-mode (non-development) filename is the logical name plus the
content-derived hash plus the extension; this holds for script artifacts
(`output.filename`, line 39) and style artifacts (MiniCssExtractPlugin
`filename`, line 152) alike. -/
theorem C3_filenames (hash : String → String) (c : Chunk) :
    chunkScriptFilename true hash c = c.name ++ ".js" ∧
    chunkCssFilename true hash c = c.name ++ ".css" ∧
    chunkScriptFilename false hash c =
      c.name ++ "." ++ hash (serializeChunk c) ++ ".js" ∧
    chunkCssFilename false hash c =
      c.name ++ "." ++ hash (serializeChunk c) ++ ".css" :=
  ⟨render_name_js c.name (hash (serializeChunk c)),
   render_name_css c.name (hash (serializeChunk c)),
   render_name_hash_js c.name (hash (serializeChunk c)),
   render_name_hash_css c.name (hash (serializeChunk c))⟩

/-- C4: SplitRules are evaluated in declared order and the first matching
rule wins — in general, a module matched by the head rule is assigned to
the head rule's target — and in particular, with the source's declared
cache groups [vendor ↦ "vendors", styles ↦ "styles"], a module under a
vendor path that is also a style module (style capability, `.css` path) is
assigned to "vendors", not "styles". -/
theorem C4_first_match_wins (dflt : String) (m : Module)
    (hv : ModuleTest.matches .vendorPath m = true)
    (hs : ModuleTest.matches .cssFile m = true)
    (hcap : m.capability = .style) :
    assignChunk cacheGroups dflt m = "vendors" ∧
    ("vendors" : String) ≠ "styles" ∧
    ∀ (r : CacheGroup) (rest : List CacheGroup) (m2 : Module),
      r.test.matches m2 = true →
      assignChunk (r :: rest) dflt m2 = r.name := by
  refine ⟨?_, by decide, ?_⟩
  · simp [assignChunk, cacheGroups, List.find?, hv]
  · intro r rest m2 hm
    simp [assignChunk, List.find?, hm]

/-- C4 witness: the tie-break theorem applied to a module inside
`node_modules` whose path ends in `.css` and whose capability is style —
it lands in "vendors". -/
theorem C4_witness :
    ModuleTest.matches .vendorPath
      { path := "/node_modules/leaflet/dist/leaflet.css",
        content := ".leaflet-pane \x7b z-index: 400 \x7d",
        capability := .style } = true ∧
    ModuleTest.matches .cssFile
      { path := "/node_modules/leaflet/dist/leaflet.css",
        content := ".leaflet-pane \x7b z-index: 400 \x7d",
        capability := .style } = true ∧
    assignChunk cacheGroups "main"
      { path := "/node_modules/leaflet/dist/leaflet.css",
        content := ".leaflet-pane \x7b z-index: 400 \x7d",
        capability := .style } = "vendors" :=
  ⟨by decide, by decide,
    (C4_first_match_wins "main"
      { path := "/node_modules/leaflet/dist/leaflet.css",
        content := ".leaflet-pane \x7b z-index: 400 \x7d",
        capability := .style }
      (by decide) (by decide) rfl).1⟩

/-- C5: with the content hash modelled as an injective pure function of
the serialized chunk bytes (spec §9), two same-named chunks get the same
production-mode filename if and only if their serialized content is equal
— filenames change exactly when content changes — while the
development-mode filename is the same whenever the name is the same,
regardless of content (stable across builds with unchanged input). -/
theorem C5_contenthash_stability (hash : String → String)
    (hinj : Function.Injective hash) (c1 c2 : Chunk)
    (hname : c1.name = c2.name) :
    (chunkScriptFilename false hash c1 = chunkScriptFilename false hash c2 ↔
      serializeChunk c1 = serializeChunk c2) ∧
    chunkScriptFilename true hash c1 = chunkScriptFilename true hash c2 := by
  have e1 : chunkScriptFilename false hash c1 =
      c1.name ++ "." ++ hash (serializeChunk c1) ++ ".js" :=
    render_name_hash_js c1.name (hash (serializeChunk c1))
  have e2 : chunkScriptFilename false hash c2 =
      c2.name ++ "." ++ hash (serializeChunk c2) ++ ".js" :=
    render_name_hash_js c2.name (hash (serializeChunk c2))
  have d1 : chunkScriptFilename true hash c1 = c1.name ++ ".js" :=
    render_name_js c1.name (hash (serializeChunk c1))
  have d2 : chunkScriptFilename true hash c2 = c2.name ++ ".js" :=
    render_name_js c2.name (hash (serializeChunk c2))
  constructor
  · constructor
    · intro h
      rw [e1, e2, hname] at h
      exact hinj (hash_cancel c2.name _ _ h)
    · intro h
      rw [e1, e2, hname, h]
  · rw [d1, d2, hname]

/-- C5 witness: the stability theorem applied with the identity hash (an
injective function) to two chunks named "main" with different module
content. -/
theorem C5_witness :
    Function.Injective (fun s : String => s) ∧
    ({ name := "main", modules := [{ path := "./src/index.js", content := "draw()", capability := .script }] } : Chunk).name =
      ({ name := "main", modules := [{ path := "./src/index.js", content := "render()", capability := .script }] } : Chunk).name ∧
    ((chunkScriptFilename false (fun s : String => s) { name := "main", modules := [{ path := "./src/index.js", content := "draw()", capability := .script }] } =
      chunkScriptFilename false (fun s : String => s) { name := "main", modules := [{ path := "./src/index.js", content := "render()", capability := .script }] }) ↔
      serializeChunk { name := "main", modules := [{ path := "./src/index.js", content := "draw()", capability := .script }] } =
        serializeChunk { name := "main", modules := [{ path := "./src/index.js", content := "render()", capability := .script }] }) ∧
    chunkScriptFilename true (fun s : String => s) { name := "main", modules := [{ path := "./src/index.js", content := "draw()", capability := .script }] } =
      chunkScriptFilename true (fun s : String => s) { name := "main", modules := [{ path := "./src/index.js", content := "render()", capability := .script }] } :=
  ⟨fun a b h => h, rfl,
    (C5_contenthash_stability (fun s : String => s) (fun a b h => h)
      { name := "main", modules := [{ path := "./src/index.js", content := "draw()", capability := .script }] }
      { name := "main", modules := [{ path := "./src/index.js", content := "render()", capability := .script }] } rfl).1,
    (C5_contenthash_stability (fun s : String => s) (fun a b h => h)
      { name := "main", modules := [{ path := "./src/index.js", content := "draw()", capability := .script }] }
      { name := "main", modules := [{ path := "./src/index.js", content := "render()", capability := .script }] } rfl).2⟩

/-- C6: modelled from the spec and `runtimeChunk: "single"` (line 115) —
provided the bootstrap pseudo-module is not among the graph's source
modules, the planned chunk list starts with the single designated runtime
chunk (loaded before all others), and exactly one chunk of the plan
contains the bootstrap logic. -/
theorem C6_single_runtime_chunk (rules : List CacheGroup) (dflt : String)
    (graph : List Module) (h : runtimeBootstrap ∉ graph) :
    (plan rules dflt graph).head? =
      some { name := "runtime", modules := [runtimeBootstrap] } ∧
    (plan rules dflt graph).countP
      (fun c => decide (runtimeBootstrap ∈ c.modules)) = 1 := by
  refine ⟨rfl, ?_⟩
  rw [plan, List.countP_cons]
  have h0 : (groupByChunk rules dflt graph).countP
      (fun c => decide (runtimeBootstrap ∈ c.modules)) = 0 := by
    rw [List.countP_eq_zero]
    intro c hc
    simp only [decide_eq_true_eq]
    intro hx
    exact h (mem_groupByChunk rules dflt runtimeBootstrap graph c hc hx)
  rw [h0]
  simp

/-- C6 witness: the runtime-chunk theorem applied to a two-module graph
(an app script and a vendor script) with the source's cache groups. -/
theorem C6_witness :
    runtimeBootstrap ∉
      [({ path := "./src/index.js", content := "draw()",
          capability := .script } : Module),
       { path := "/node_modules/leaflet/dist/leaflet.js",
          content := "leaflet", capability := .script }] ∧
    (plan cacheGroups "index"
      [{ path := "./src/index.js", content := "draw()",
          capability := .script },
       { path := "/node_modules/leaflet/dist/leaflet.js",
          content := "leaflet", capability := .script }]).head? =
      some { name := "runtime", modules := [runtimeBootstrap] } ∧
    (plan cacheGroups "index"
      [{ path := "./src/index.js", content := "draw()",
          capability := .script },
       { path := "/node_modules/leaflet/dist/leaflet.js",
          content := "leaflet", capability := .script }]).countP
      (fun c => decide (runtimeBootstrap ∈ c.modules)) = 1 :=
  ⟨by decide,
    (C6_single_runtime_chunk cacheGroups "index" _ (by decide)).1,
    (C6_single_runtime_chunk cacheGroups "index"
      [{ path := "./src/index.js", content := "draw()",
          capability := .script },
       { path := "/node_modules/leaflet/dist/leaflet.js",
          content := "leaflet", capability := .script }] (by decide)).2⟩

/-- C7: modelled from the spec (§4.3, §4.4) — the dependency-graph builder
enters (and hence transforms) each module identity at most once, whatever
the import structure and however many entry points reach it (the module
table is duplicate-free), and the chunk planner never duplicates a module:
the number of occurrences of any module across all planned chunks equals
its number of occurrences in the graph — in particular a module listed
once lands in exactly one chunk. -/
theorem C7_transform_once_one_chunk (imports : String → List String)
    (fuel : Nat) (entries : List String) (rules : List CacheGroup)
    (dflt : String) (graph : List Module) (m : Module) :
    (buildGraph imports fuel entries []).Nodup ∧
    countModules (groupByChunk rules dflt graph) m = graph.count m :=
  ⟨buildGraph_nodup imports fuel entries [] List.nodup_nil,
   countModules_groupByChunk rules dflt m graph⟩

/-- C8: for any two invocations that agree on `argv.env.NODE_ENV`, the
returned configuration objects are identical — in every field, hence in
every mode-dependent field (output.filename, devtool, css-loader hmr,
MiniCssExtractPlugin filenames) — whatever `argv.mode` (and the unused
first parameter) are: `argv.mode` influences only the console log, never
the returned configuration. -/
theorem C8_mode_noninterference (e1 e2 : Option Env) (a1 a2 : Argv)
    (v1 v2 : Env) (h1 : a1.env = some v1) (h2 : a2.env = some v2)
    (hv : v1.NODE_ENV = v2.NODE_ENV) :
    (moduleExports e1 a1).map Prod.snd =
      (moduleExports e2 a2).map Prod.snd := by
  simp [moduleExports, h1, h2, Except.map, hv]

/-- C8 witness: the noninterference theorem applied to two invocations
with `NODE_ENV = "production"` but `mode = "development"` versus an
undefined mode. -/
theorem C8_witness :
    ({ env := some { NODE_ENV := "production" }, mode := some "development" } :
        Argv).env = some { NODE_ENV := "production" } ∧
    ({ env := some { NODE_ENV := "production" }, mode := none } :
        Argv).env = some { NODE_ENV := "production" } ∧
    (moduleExports none
      { env := some { NODE_ENV := "production" },
        mode := some "development" }).map Prod.snd =
    (moduleExports (some { NODE_ENV := "development" })
      { env := some { NODE_ENV := "production" }, mode := none }).map
        Prod.snd :=
  ⟨rfl, rfl,
    C8_mode_noninterference none (some { NODE_ENV := "development" })
      { env := some { NODE_ENV := "production" }, mode := some "development" }
      { env := some { NODE_ENV := "production" }, mode := none }
      { NODE_ENV := "production" } { NODE_ENV := "production" }
      rfl rfl rfl⟩

/-- C9: whenever `argv.env` is undefined, the exported function fails with
a TypeError — line 14 reads `argv.env.NODE_ENV` — before returning any
configuration: a defined `argv.env` is a precondition for producing any
config at all. -/
theorem C9_env_undefined_fails (env : Option Env) (argv : Argv)
    (h : argv.env = none) :
    moduleExports env argv = .error JsError.typeError := by
  simp [moduleExports, h]

/-- C9 witness: the theorem applied to an invocation whose `argv` carries
a mode but no `env` object. -/
theorem C9_witness :
    ({ env := none, mode := some "development" } : Argv).env = none ∧
    moduleExports none { env := none, mode := some "development" } =
      .error JsError.typeError :=
  ⟨rfl,
    C9_env_undefined_fails none { env := none, mode := some "development" }
      rfl⟩

/-- C10: modelled from the spec — the DefinePlugin substitution driven by
the mapping configured at lines 160-162 replaces every occurrence of the
token `process.env.NODE_ENV` in application code by
`JSON.stringify(argv.env.NODE_ENV)`, and the bundled application,
evaluating that replacement as a JavaScript string literal, observes
exactly the config-time `NODE_ENV` value. -/
theorem C10_define_substitution (v : String) (tokens : List String)
    (i : Nat) (hi : i < tokens.length)
    (ht : tokens.get ⟨i, hi⟩ = "process.env.NODE_ENV") :
    (defineReplace "process.env.NODE_ENV" (jsonStringify v) tokens).get
      ⟨i, by simpa [defineReplace] using hi⟩ = jsonStringify v ∧
    evalStringLiteral (jsonStringify v) = some v := by
  refine ⟨?_, evalStringLiteral_jsonStringify v⟩
  simp only [defineReplace, List.get_eq_getElem, List.getElem_map]
  rw [show tokens[i] = tokens.get ⟨i, hi⟩ from rfl, ht]
  simp

/-- C10 witness: the substitution theorem applied to a two-token program
with `NODE_ENV = "production"`. -/
theorem C10_witness :
    (1 : Nat) < (["let mode = ", "process.env.NODE_ENV"] : List String).length ∧
    (["let mode = ", "process.env.NODE_ENV"] : List String).get
      ⟨1, by decide⟩ = "process.env.NODE_ENV" ∧
    (defineReplace "process.env.NODE_ENV" (jsonStringify "production")
      ["let mode = ", "process.env.NODE_ENV"]).get
      ⟨1, by simp [defineReplace]⟩ = jsonStringify "production" ∧
    evalStringLiteral (jsonStringify "production") = some "production" :=
  ⟨by decide, by decide,
    (C10_define_substitution "production"
      ["let mode = ", "process.env.NODE_ENV"] 1 (by decide) (by decide)).1,
    (C10_define_substitution "production"
      ["let mode = ", "process.env.NODE_ENV"] 1 (by decide) (by decide)).2⟩

end Webpack
